import Mathlib

/-!
Shallow embedding of `src/py-service/src/main.py` (GraphSearchService entry
point): the FastAPI `lifespan` async context manager, the `/health` handler,
and the registered global exception handler.

Modelling conventions:
* A Python exception is represented by its string form (`str(exc)`), type
  `PyErr`.
* A JSON-serialisable Python value is `PyVal`; `PyVal.truthy` is Python
  truthiness (`bool(v)`).
* An `await`ed subsystem call is its outcome, `Except PyErr α`.
* `asyncio.gather` with the default `return_exceptions=False` starts every
  task and propagates the first exception: `gatherUnit` records that every
  awaitable is invoked (callers append every name to the call trace) and
  returns the first error in argument order, if any.
* The `@asynccontextmanager`-decorated `lifespan` generator is a state
  machine over generator positions: `created` (not yet started), `ready`
  (suspended at the `yield`, i.e. serving), `failedStartup` (raised before
  the `yield`; generator exhausted), `stopped` (ran past the `yield` to
  completion), `stoppedRaised` (the cleanup section raised; generator
  exhausted via that exception).  `resume` is one `anext` step;
  `startup` is `__aenter__` and `shutdown` is the no-pending-exception
  branch of `__aexit__` of `contextlib._AsyncGeneratorContextManager`
  (where a `StopAsyncIteration` from an exhausted generator is swallowed).
-/

/-- A Python exception, identified by its `str(exc)` form. -/
abbrev PyErr : Type := String

/-- A JSON-serialisable Python value, as produced by the handlers in
`main.py`. -/
inductive PyVal : Type
  | none : PyVal
  | bool : Bool → PyVal
  | int : Int → PyVal
  | str : String → PyVal
  | list : List PyVal → PyVal
  | dict : List (String × PyVal) → PyVal

/-- Python truthiness `bool(v)`: `None` and `False` are falsy, numbers are
truthy unless zero, strings and containers are truthy unless empty. -/
def PyVal.truthy : PyVal → Bool
  | .none => false
  | .bool b => b
  | .int n => decide (n ≠ 0)
  | .str s => !s.isEmpty
  | .list xs => !xs.isEmpty
  | .dict xs => !xs.isEmpty

/-- One subsystem service object (`FuzzyMatchService`, `GraphIndexService`,
`QueryOptimizerService`).  The classes live outside `src/`; here a service is
the observable outcome of awaiting each of its three async methods
(`init` models the `initialize()` method). -/
structure Service where
  init : Except PyErr Unit
  cleanup : Except PyErr Unit
  health_check : Except PyErr PyVal

/-- `app.state` after lines 28-30 of `main.py`: exactly three service
attributes. -/
structure App where
  fuzzy_match_service : Service
  graph_index_service : Service
  query_optimizer_service : Service

/-- The fixed, ordered collection of services the lifespan and the `/health`
handler operate on, keyed by the names used in the `/health` response
(lines 94-98). -/
def App.namedServices (a : App) : List (String × Service) :=
  [("fuzzy_match", a.fuzzy_match_service),
   ("graph_index", a.graph_index_service),
   ("query_optimizer", a.query_optimizer_service)]

/-- First error among a batch of awaited outcomes, in argument order. -/
def firstError : List (Except PyErr Unit) → Option PyErr
  | [] => Option.none
  | .error e :: _ => Option.some e
  | .ok _ :: rest => firstError rest

/-- `await asyncio.gather(...)` over unit-returning coroutines with the
default `return_exceptions=False`: every awaitable is started; the first
exception is propagated to the awaiter. -/
def gatherUnit (rs : List (Except PyErr Unit)) : Except PyErr Unit :=
  match firstError rs with
  | Option.none => .ok ()
  | Option.some e => .error e

/-- Position of the `lifespan` async generator. -/
inductive Phase : Type
  | created
  | ready
  | failedStartup
  | stopped
  | stoppedRaised
deriving DecidableEq, Repr

/-- Lifecycle state: the generator position plus the trace of `initialize`
and `cleanup` invocations issued so far (service names, in issue order). -/
structure AppState where
  phase : Phase
  initCalls : List String
  cleanupCalls : List String
deriving DecidableEq, Repr

/-- Process start: generator created, nothing invoked yet. -/
def AppState.initial : AppState := ⟨.created, [], []⟩

/-- Outcome of one `anext` on the `lifespan` generator. -/
inductive ResumeOutcome : Type
  | yielded
  | stopIteration
  | raised : PyErr → ResumeOutcome
deriving DecidableEq, Repr

/-- One `anext` step of the `lifespan` generator of `main.py` over the
registered services `svcs`:
from `created` it runs the pre-`yield` section (lines 28-37: create the
services, `gather` their `initialize`s) and suspends at the `yield` or
raises; from `ready` it runs the post-`yield` section (lines 42-46:
`gather` the `cleanup`s) and finishes or raises; an exhausted generator
immediately raises `StopAsyncIteration`. -/
def resume (svcs : List (String × Service)) (s : AppState) :
    AppState × ResumeOutcome :=
  match s.phase with
  | .created =>
    match gatherUnit (svcs.map (fun p => p.2.init)) with
    | .ok _ =>
        ({ s with phase := .ready,
                  initCalls := s.initCalls ++ svcs.map Prod.fst },
         .yielded)
    | .error e =>
        ({ s with phase := .failedStartup,
                  initCalls := s.initCalls ++ svcs.map Prod.fst },
         .raised e)
  | .ready =>
    match gatherUnit (svcs.map (fun p => p.2.cleanup)) with
    | .ok _ =>
        ({ s with phase := .stopped,
                  cleanupCalls := s.cleanupCalls ++ svcs.map Prod.fst },
         .stopIteration)
    | .error e =>
        ({ s with phase := .stoppedRaised,
                  cleanupCalls := s.cleanupCalls ++ svcs.map Prod.fst },
         .raised e)
  | _ => (s, .stopIteration)

/-- `__aenter__` of the lifespan context manager (the runtime's "on start"
hook): resume the generator once; a raised exception propagates to the
caller; finishing without yielding would be a `RuntimeError`. -/
def startup (svcs : List (String × Service)) (s : AppState) :
    AppState × Except PyErr Unit :=
  match resume svcs s with
  | (s2, .yielded) => (s2, .ok ())
  | (s2, .raised e) => (s2, .error e)
  | (s2, .stopIteration) =>
      (s2, .error "RuntimeError: generator didn't yield")

/-- `__aexit__` of the lifespan context manager with no pending exception
(the runtime's "on stop" hook): resume the generator once; a clean
`StopAsyncIteration` is swallowed, an exception raised by the cleanup
section propagates to the caller, a second `yield` would be a
`RuntimeError`. -/
def shutdown (svcs : List (String × Service)) (s : AppState) :
    AppState × Except PyErr Unit :=
  match resume svcs s with
  | (s2, .stopIteration) => (s2, .ok ())
  | (s2, .raised e) => (s2, .error e)
  | (s2, .yielded) =>
      (s2, .error "RuntimeError: generator didn't stop")

/-- The `/health` handler body (lines 91-103): await each service's
`health_check` in turn (an exception propagates out of the handler),
then build the response dict; the overall status is `"healthy"` iff
`all(services_status.values())`, under Python truthiness. -/
def health_check (a : App) : Except PyErr PyVal :=
  match a.fuzzy_match_service.health_check with
  | .error e => .error e
  | .ok f =>
    match a.graph_index_service.health_check with
    | .error e => .error e
    | .ok g =>
      match a.query_optimizer_service.health_check with
      | .error e => .error e
      | .ok q =>
        let services_status : List (String × PyVal) :=
          [("fuzzy_match", f), ("graph_index", g), ("query_optimizer", q)]
        .ok (.dict
          [("status",
            .str (if (services_status.map Prod.snd).all PyVal.truthy
                  then "healthy" else "degraded")),
           ("services", .dict services_status)])

/-- An HTTP response: status code plus JSON body. -/
structure Response where
  status_code : Nat
  content : PyVal

/-- The registered global exception handler (lines 66-72): log, then return
a 500 `JSONResponse` with the fixed error field and the stringified
exception as detail. -/
def global_exception_handler (exc : PyErr) : Response :=
  { status_code := 500,
    content := .dict [("error", .str "内部服务器错误"),
                      ("detail", .str exc)] }

/-- The transport boundary around one request, as configured by
`@app.exception_handler(Exception)` (line 66): a handler that returns a body
becomes a 200 response; an exception escaping the handler is routed to
`global_exception_handler`. -/
def serveRequest (handlerResult : Except PyErr PyVal) : Response :=
  match handlerResult with
  | .ok body => { status_code := 200, content := body }
  | .error exc => global_exception_handler exc

/-- `serveRequest` threaded with the lifecycle state: the exception handler
reads no lifecycle state and performs no `initialize`/`cleanup` calls, so
the state passes through untouched. -/
def serveRequestSt (s : AppState) (handlerResult : Except PyErr PyVal) :
    AppState × Response :=
  (s, serveRequest handlerResult)

/-- A service whose three methods all succeed (health probe returns `True`). -/
def okService : Service := ⟨.ok (), .ok (), .ok (.bool true)⟩

/-- A service whose `initialize()` raises. -/
def badInitService : Service := ⟨.error "init boom", .ok (), .ok (.bool true)⟩

/-- A service whose `cleanup()` raises. -/
def badCleanupService : Service := ⟨.ok (), .error "cleanup boom", .ok (.bool true)⟩

/-- A service whose `health_check()` raises. -/
def badHealthService : Service := ⟨.ok (), .ok (), .error "health boom"⟩

/-- A service whose health probe returns an unhealthy (falsy) value. -/
def unhealthyService : Service := ⟨.ok (), .ok (), .ok (.bool false)⟩

/-- A service whose health probe returns the truthy non-boolean `"ok"`. -/
def strHealthService : Service := ⟨.ok (), .ok (), .ok (.str "ok")⟩

/-- App in which every subsystem behaves. -/
def appAllOk : App := ⟨okService, okService, okService⟩

/-- App whose fuzzy-match subsystem raises from `health_check()`. -/
def appBadHealth : App := ⟨badHealthService, okService, okService⟩

/-- App whose graph-index subsystem raises from `cleanup()`. -/
def appBadCleanup : App := ⟨okService, badCleanupService, okService⟩

/-- App whose fuzzy-match subsystem raises from `initialize()`. -/
def appBadInit : App := ⟨badInitService, okService, okService⟩

/-- App whose graph-index subsystem reports unhealthy. -/
def appOneUnhealthy : App := ⟨okService, unhealthyService, okService⟩

/-- App whose subsystems report the truthy string `"ok"` as health. -/
def appStrHealth : App := ⟨strHealthService, strHealthService, strHealthService⟩

theorem firstError_eq_none_iff (rs : List (Except PyErr Unit)) :
    firstError rs = Option.none ↔ ∀ r ∈ rs, r = .ok () := by
  induction rs with
  | nil => simp [firstError]
  | cons r rest ih =>
    cases r with
    | ok u => cases u; simp [firstError, ih]
    | error e => simp [firstError]

theorem firstError_mem (rs : List (Except PyErr Unit)) (e : PyErr)
    (h : firstError rs = Option.some e) :
    (Except.error e : Except PyErr Unit) ∈ rs := by
  induction rs with
  | nil => simp [firstError] at h
  | cons r rest ih =>
    cases r with
    | ok u =>
        cases u
        simp only [firstError] at h
        exact List.mem_cons_of_mem _ (ih h)
    | error x =>
        simp only [firstError, Option.some.injEq] at h
        subst h
        exact List.mem_cons_self _ _

theorem gatherUnit_ok (rs : List (Except PyErr Unit))
    (h : ∀ r ∈ rs, r = .ok ()) : gatherUnit rs = .ok () := by
  unfold gatherUnit
  rw [(firstError_eq_none_iff rs).mpr h]

theorem gatherUnit_error (rs : List (Except PyErr Unit))
    (h : ∃ r ∈ rs, r ≠ .ok ()) :
    ∃ e, gatherUnit rs = .error e ∧
      (Except.error e : Except PyErr Unit) ∈ rs := by
  obtain ⟨r, hr, hne⟩ := h
  cases hfe : firstError rs with
  | none =>
      exact absurd ((firstError_eq_none_iff rs).mp hfe r hr) hne
  | some e =>
      exact ⟨e, by unfold gatherUnit; rw [hfe], firstError_mem rs e hfe⟩

/-- C5: for every list of registered services whose `initialize` all
succeed, startup ends suspended at the `yield` (the serving position,
the spec's `Ready`), returns no error, and the `initialize` trace is
exactly one invocation per registered service: under unique names, each
name is invoked exactly once. -/
theorem startup_all_ok (svcs : List (String × Service))
    (h : ∀ p ∈ svcs, p.2.init = .ok ()) :
    (startup svcs AppState.initial).2 = .ok () ∧
    (startup svcs AppState.initial).1.phase = .ready ∧
    (startup svcs AppState.initial).1.initCalls = svcs.map Prod.fst ∧
    ((svcs.map Prod.fst).Nodup → ∀ n ∈ svcs.map Prod.fst,
      ((startup svcs AppState.initial).1.initCalls).count n = 1) := by
  have hg : gatherUnit (svcs.map (fun p => p.2.init)) = .ok () := by
    refine gatherUnit_ok _ ?_
    intro r hr
    obtain ⟨p, hp, rfl⟩ := List.mem_map.mp hr
    exact h p hp
  have hcalls : (startup svcs AppState.initial).1.initCalls = svcs.map Prod.fst := by
    simp [startup, resume, AppState.initial, hg]
  refine ⟨?_, ?_, hcalls, ?_⟩
  · simp [startup, resume, AppState.initial, hg]
  · simp [startup, resume, AppState.initial, hg]
  · intro hnd n hn
    rw [hcalls]
    exact List.count_eq_one_of_mem hnd hn

/-- C5 witness: the three concrete services of `appAllOk` all initialize,
startup reaches the serving position and initializes each exactly once. -/
theorem startup_all_ok_witness :
    (∀ p ∈ appAllOk.namedServices, p.2.init = .ok ()) ∧
    ((startup appAllOk.namedServices AppState.initial).2 = .ok () ∧
     (startup appAllOk.namedServices AppState.initial).1.phase = .ready ∧
     (startup appAllOk.namedServices AppState.initial).1.initCalls =
       appAllOk.namedServices.map Prod.fst ∧
     ((appAllOk.namedServices.map Prod.fst).Nodup →
       ∀ n ∈ appAllOk.namedServices.map Prod.fst,
         ((startup appAllOk.namedServices AppState.initial).1.initCalls).count n = 1)) :=
  ⟨by simp [App.namedServices, appAllOk, okService],
   startup_all_ok appAllOk.namedServices
     (by simp [App.namedServices, appAllOk, okService])⟩

/-- C4: for every list of registered services in which some `initialize`
fails, startup raises: the generator dies before the `yield` (phase
`failedStartup`, the spec's `FailedStartup`), the triggering exception
is propagated to the caller and is one of the services' own `initialize`
failures, and the serving position (`ready`) is never reached. -/
theorem startup_some_fails (svcs : List (String × Service))
    (h : ∃ p ∈ svcs, p.2.init ≠ .ok ()) :
    ∃ e, (startup svcs AppState.initial).2 = .error e ∧
      (Except.error e : Except PyErr Unit) ∈ svcs.map (fun p => p.2.init) ∧
      (startup svcs AppState.initial).1.phase = .failedStartup ∧
      (startup svcs AppState.initial).1.phase ≠ .ready := by
  have hx : ∃ r ∈ svcs.map (fun p => p.2.init), r ≠ .ok () := by
    obtain ⟨p, hp, hne⟩ := h
    exact ⟨p.2.init, List.mem_map_of_mem _ hp, hne⟩
  obtain ⟨e, hg, hmem⟩ := gatherUnit_error _ hx
  refine ⟨e, ?_, hmem, ?_, ?_⟩ <;>
    simp [startup, resume, AppState.initial, hg]

/-- C4 witness: `appBadInit`'s fuzzy-match subsystem fails to initialize;
startup propagates an error and never reaches the serving position. -/
theorem startup_some_fails_witness :
    (∃ p ∈ appBadInit.namedServices, p.2.init ≠ .ok ()) ∧
    (∃ e, (startup appBadInit.namedServices AppState.initial).2 = .error e ∧
      (Except.error e : Except PyErr Unit) ∈
        appBadInit.namedServices.map (fun p => p.2.init) ∧
      (startup appBadInit.namedServices AppState.initial).1.phase = .failedStartup ∧
      (startup appBadInit.namedServices AppState.initial).1.phase ≠ .ready) :=
  ⟨⟨("fuzzy_match", badInitService),
     by simp [App.namedServices, appBadInit],
     by simp [badInitService]⟩,
   startup_some_fails appBadInit.namedServices
     ⟨("fuzzy_match", badInitService),
      by simp [App.namedServices, appBadInit],
      by simp [badInitService]⟩⟩

theorem shutdown_exhausted (svcs : List (String × Service)) (t : AppState)
    (h : t.phase = .stopped ∨ t.phase = .failedStartup ∨ t.phase = .stoppedRaised) :
    shutdown svcs t = (t, .ok ()) := by
  rcases h with h | h | h <;> simp [shutdown, resume, h]

/-- C3 counterexample: with `appBadInit` (its fuzzy-match `initialize`
raises), startup propagates the exception, and the subsequent shutdown hook
invokes no cleanup on any service and never reaches the `stopped` position
— refuting "cleanup is invoked exactly once on every registered service
... and the final state is Stopped". -/
theorem failed_startup_no_cleanup_cex :
    (startup appBadInit.namedServices AppState.initial).2 = .error "init boom" ∧
    (shutdown appBadInit.namedServices
       (startup appBadInit.namedServices AppState.initial).1).1.cleanupCalls = [] ∧
    (shutdown appBadInit.namedServices
       (startup appBadInit.namedServices AppState.initial).1).1.phase ≠ .stopped :=
  ⟨rfl, rfl, by decide⟩

/-- C3 (amended): if some service's `initialize` fails, startup raises and
the lifespan generator is already exhausted; the shutdown hook then
performs no cleanup invocation on any service (it only swallows
`StopAsyncIteration`), and the state keeps the `failedStartup` position,
never reaching `stopped`. -/
theorem shutdown_after_failed_startup (svcs : List (String × Service))
    (h : ∃ p ∈ svcs, p.2.init ≠ .ok ()) :
    shutdown svcs (startup svcs AppState.initial).1 =
      ((startup svcs AppState.initial).1, .ok ()) ∧
    (shutdown svcs (startup svcs AppState.initial).1).1.cleanupCalls = [] ∧
    (shutdown svcs (startup svcs AppState.initial).1).1.phase = .failedStartup := by
  have hx : ∃ r ∈ svcs.map (fun p => p.2.init), r ≠ .ok () := by
    obtain ⟨p, hp, hne⟩ := h
    exact ⟨p.2.init, List.mem_map_of_mem _ hp, hne⟩
  obtain ⟨e, hg, -⟩ := gatherUnit_error _ hx
  have hst : (startup svcs AppState.initial).1 =
      ⟨.failedStartup, svcs.map Prod.fst, []⟩ := by
    simp [startup, resume, AppState.initial, hg]
  rw [hst]
  exact ⟨shutdown_exhausted svcs _ (Or.inr (Or.inl rfl)), rfl, rfl⟩

/-- C3 amended witness: concrete run on `appBadInit`. -/
theorem shutdown_after_failed_startup_witness :
    (∃ p ∈ appBadInit.namedServices, p.2.init ≠ .ok ()) ∧
    (shutdown appBadInit.namedServices
       (startup appBadInit.namedServices AppState.initial).1 =
       ((startup appBadInit.namedServices AppState.initial).1, .ok ()) ∧
     (shutdown appBadInit.namedServices
        (startup appBadInit.namedServices AppState.initial).1).1.cleanupCalls = [] ∧
     (shutdown appBadInit.namedServices
        (startup appBadInit.namedServices AppState.initial).1).1.phase = .failedStartup) :=
  ⟨⟨("fuzzy_match", badInitService),
     by simp [App.namedServices, appBadInit],
     by simp [badInitService]⟩,
   shutdown_after_failed_startup appBadInit.namedServices
     ⟨("fuzzy_match", badInitService),
      by simp [App.namedServices, appBadInit],
      by simp [badInitService]⟩⟩

/-- C2 counterexample: with `appBadCleanup` (its graph-index `cleanup`
raises), startup succeeds, and shutdown propagates the cleanup exception
to its caller — refuting "no cleanup exception is ever surfaced to the
shutdown caller". -/
theorem cleanup_failure_surfaces_cex :
    (startup appBadCleanup.namedServices AppState.initial).1.phase = .ready ∧
    (shutdown appBadCleanup.namedServices
       (startup appBadCleanup.namedServices AppState.initial).1).2 =
      .error "cleanup boom" :=
  ⟨rfl, rfl⟩

/-- C2 (amended): shutdown from the serving position starts every service's
cleanup (appending the whole name list to the cleanup trace, so no failure
prevents another cleanup from being started), and succeeds when every
cleanup succeeds; but a cleanup failure is not caught: the first failing
cleanup's own exception propagates to the shutdown caller. -/
theorem shutdown_propagates_cleanup_failure (svcs : List (String × Service))
    (s : AppState) (h : s.phase = .ready) :
    (shutdown svcs s).1.cleanupCalls = s.cleanupCalls ++ svcs.map Prod.fst ∧
    ((∀ p ∈ svcs, p.2.cleanup = .ok ()) → (shutdown svcs s).2 = .ok ()) ∧
    ((∃ p ∈ svcs, p.2.cleanup ≠ .ok ()) →
      ∃ e, (shutdown svcs s).2 = .error e ∧
        (Except.error e : Except PyErr Unit) ∈ svcs.map (fun p => p.2.cleanup)) := by
  cases hfe : firstError (svcs.map (fun p => p.2.cleanup)) with
  | none =>
      have hg : gatherUnit (svcs.map (fun p => p.2.cleanup)) = .ok () := by
        unfold gatherUnit; rw [hfe]
      refine ⟨?_, fun _ => ?_, ?_⟩
      · simp [shutdown, resume, h, hg]
      · simp [shutdown, resume, h, hg]
      · intro hx
        obtain ⟨p, hp, hne⟩ := hx
        exact absurd
          ((firstError_eq_none_iff _).mp hfe _ (List.mem_map_of_mem _ hp)) hne
  | some e =>
      have hg : gatherUnit (svcs.map (fun p => p.2.cleanup)) = .error e := by
        unfold gatherUnit; rw [hfe]
      refine ⟨?_, ?_, fun _ => ⟨e, ?_, firstError_mem _ _ hfe⟩⟩
      · simp [shutdown, resume, h, hg]
      · intro hall
        have hnone : firstError (svcs.map (fun p => p.2.cleanup)) = Option.none := by
          rw [firstError_eq_none_iff]
          intro r hr
          obtain ⟨p, hp, rfl⟩ := List.mem_map.mp hr
          exact hall p hp
        rw [hnone] at hfe
        exact Option.noConfusion hfe
      · simp [shutdown, resume, h, hg]

/-- C2 amended witness: concrete run on `appBadCleanup` from the serving
position reached by its successful startup. -/
theorem shutdown_propagates_cleanup_failure_witness :
    (startup appBadCleanup.namedServices AppState.initial).1.phase = .ready ∧
    ((shutdown appBadCleanup.namedServices
        (startup appBadCleanup.namedServices AppState.initial).1).1.cleanupCalls =
      (startup appBadCleanup.namedServices AppState.initial).1.cleanupCalls ++
        appBadCleanup.namedServices.map Prod.fst ∧
     ((∀ p ∈ appBadCleanup.namedServices, p.2.cleanup = .ok ()) →
       (shutdown appBadCleanup.namedServices
          (startup appBadCleanup.namedServices AppState.initial).1).2 = .ok ()) ∧
     ((∃ p ∈ appBadCleanup.namedServices, p.2.cleanup ≠ .ok ()) →
       ∃ e, (shutdown appBadCleanup.namedServices
               (startup appBadCleanup.namedServices AppState.initial).1).2 = .error e ∧
         (Except.error e : Except PyErr Unit) ∈
           appBadCleanup.namedServices.map (fun p => p.2.cleanup))) :=
  ⟨rfl,
   shutdown_propagates_cleanup_failure appBadCleanup.namedServices
     (startup appBadCleanup.namedServices AppState.initial).1 rfl⟩

/-- C8: when shutdown from the serving position completes successfully, the
generator finishes in the `stopped` position; a second shutdown call
swallows the exhausted generator's `StopAsyncIteration`: it performs no
further cleanup invocation, returns no error, and leaves the state exactly
as the first call left it. -/
theorem shutdown_idempotent (svcs : List (String × Service)) (s : AppState)
    (hready : s.phase = .ready)
    (hok : (shutdown svcs s).2 = .ok ()) :
    (shutdown svcs s).1.phase = .stopped ∧
    shutdown svcs (shutdown svcs s).1 = ((shutdown svcs s).1, .ok ()) := by
  cases hg : gatherUnit (svcs.map (fun p => p.2.cleanup)) with
  | ok u =>
      cases u
      have h1 : (shutdown svcs s).1.phase = .stopped := by
        simp [shutdown, resume, hready, hg]
      exact ⟨h1, shutdown_exhausted svcs _ (Or.inl h1)⟩
  | error e =>
      simp [shutdown, resume, hready, hg] at hok

/-- C8 witness: concrete double shutdown on `appAllOk` from the serving
position. -/
theorem shutdown_idempotent_witness :
    ((AppState.mk .ready [] []).phase = .ready ∧
     (shutdown appAllOk.namedServices (AppState.mk .ready [] [])).2 = .ok ()) ∧
    ((shutdown appAllOk.namedServices (AppState.mk .ready [] [])).1.phase = .stopped ∧
     shutdown appAllOk.namedServices
        (shutdown appAllOk.namedServices (AppState.mk .ready [] [])).1 =
       ((shutdown appAllOk.namedServices (AppState.mk .ready [] [])).1, .ok ())) :=
  ⟨⟨rfl, rfl⟩,
   shutdown_idempotent appAllOk.namedServices (AppState.mk .ready [] []) rfl rfl⟩

/-- C1 counterexample: on `appBadHealth` the fuzzy-match subsystem's
`health_check` raises; the `/health` handler returns no report marking it
unhealthy — the exception propagates out of the handler and surfaces as an
HTTP 500 error response. -/
theorem health_exception_not_contained_cex :
    health_check appBadHealth = .error "health boom" ∧
    serveRequest (health_check appBadHealth) =
      { status_code := 500,
        content := .dict [("error", .str "内部服务器错误"),
                          ("detail", .str "health boom")] } :=
  ⟨rfl, rfl⟩

/-- C1 (amended): a failing `health_check` is not caught inside the
`/health` handler: the first failing service's exception propagates out of
the handler, and the registered global exception handler surfaces it as an
HTTP 500 error response; no health report is produced. -/
theorem health_exception_propagates (a : App) (e : PyErr)
    (h : a.fuzzy_match_service.health_check = .error e ∨
         ((∃ f, a.fuzzy_match_service.health_check = .ok f) ∧
           a.graph_index_service.health_check = .error e) ∨
         ((∃ f, a.fuzzy_match_service.health_check = .ok f) ∧
           (∃ g, a.graph_index_service.health_check = .ok g) ∧
           a.query_optimizer_service.health_check = .error e)) :
    health_check a = .error e ∧
    serveRequest (health_check a) =
      { status_code := 500,
        content := .dict [("error", .str "内部服务器错误"),
                          ("detail", .str e)] } := by
  have hh : health_check a = .error e := by
    rcases h with h1 | ⟨⟨f, hf⟩, h2⟩ | ⟨⟨f, hf⟩, ⟨g, hg⟩, h3⟩
    · simp [health_check, h1]
    · simp [health_check, hf, h2]
    · simp [health_check, hf, hg, h3]
  refine ⟨hh, ?_⟩
  rw [hh]
  rfl

/-- C1 amended witness: concrete run on `appBadHealth`. -/
theorem health_exception_propagates_witness :
    (appBadHealth.fuzzy_match_service.health_check = .error "health boom" ∨
     ((∃ f, appBadHealth.fuzzy_match_service.health_check = .ok f) ∧
       appBadHealth.graph_index_service.health_check = .error "health boom") ∨
     ((∃ f, appBadHealth.fuzzy_match_service.health_check = .ok f) ∧
       (∃ g, appBadHealth.graph_index_service.health_check = .ok g) ∧
       appBadHealth.query_optimizer_service.health_check = .error "health boom")) ∧
    (health_check appBadHealth = .error "health boom" ∧
     serveRequest (health_check appBadHealth) =
       { status_code := 500,
         content := .dict [("error", .str "内部服务器错误"),
                           ("detail", .str "health boom")] }) :=
  ⟨Or.inl rfl, health_exception_propagates appBadHealth "health boom" (Or.inl rfl)⟩

/-- C6: every exception escaping a handler is converted by the registered
global exception handler into an HTTP 500 response with the constant error
field `"内部服务器错误"` and the stringified exception as detail, never
re-raised, and the lifecycle state passes through the boundary untouched. -/
theorem error_boundary_uniform_500 (s : AppState) (exc : PyErr) :
    serveRequestSt s (.error exc) =
      (s, { status_code := 500,
            content := .dict [("error", .str "内部服务器错误"),
                              ("detail", .str exc)] }) := rfl

/-- C7: when every health probe returns, the `/health` endpoint leaves the
lifecycle state untouched and produces a report whose per-service entries
are exactly the services' own `health_check` results, with overall status
`"healthy"` iff every entry is healthy (truthy), and `"degraded"` in every
other case. -/
theorem health_verdict_iff_all_healthy (a : App) (s : AppState) (f g q : PyVal)
    (hf : a.fuzzy_match_service.health_check = .ok f)
    (hg : a.graph_index_service.health_check = .ok g)
    (hq : a.query_optimizer_service.health_check = .ok q) :
    (serveRequestSt s (health_check a)).1 = s ∧
    ∃ st : String,
      health_check a = .ok (.dict
        [("status", .str st),
         ("services", .dict
           [("fuzzy_match", f), ("graph_index", g), ("query_optimizer", q)])]) ∧
      (st = "healthy" ↔
        (f.truthy = true ∧ g.truthy = true ∧ q.truthy = true)) ∧
      (st = "healthy" ∨ st = "degraded") := by
  refine ⟨rfl,
    if ([f, g, q].all PyVal.truthy) then "healthy" else "degraded", ?_, ?_, ?_⟩
  · simp [health_check, hf, hg, hq]
  · cases hb : [f, g, q].all PyVal.truthy with
    | true =>
        simp only [hb, if_true]
        simp at hb
        simpa using hb
    | false =>
        simp only [hb, Bool.false_eq_true, if_false]
        simp at hb
        constructor
        · intro hcon; exact absurd hcon (by decide)
        · rintro ⟨h1, h2, h3⟩
          simp [h1, h2, h3] at hb
  · cases hb : [f, g, q].all PyVal.truthy <;> simp [hb]

/-- C7 witness: concrete run on `appOneUnhealthy` (one unhealthy and two
healthy subsystems) from the initial state. -/
theorem health_verdict_iff_all_healthy_witness :
    (appOneUnhealthy.fuzzy_match_service.health_check = .ok (.bool true) ∧
     appOneUnhealthy.graph_index_service.health_check = .ok (.bool false) ∧
     appOneUnhealthy.query_optimizer_service.health_check = .ok (.bool true)) ∧
    ((serveRequestSt AppState.initial (health_check appOneUnhealthy)).1 =
       AppState.initial ∧
     ∃ st : String,
       health_check appOneUnhealthy = .ok (.dict
         [("status", .str st),
          ("services", .dict
            [("fuzzy_match", .bool true), ("graph_index", .bool false),
             ("query_optimizer", .bool true)])]) ∧
       (st = "healthy" ↔
         ((PyVal.bool true).truthy = true ∧ (PyVal.bool false).truthy = true ∧
          (PyVal.bool true).truthy = true)) ∧
       (st = "healthy" ∨ st = "degraded")) :=
  ⟨⟨rfl, rfl, rfl⟩,
   health_verdict_iff_all_healthy appOneUnhealthy AppState.initial
     (.bool true) (.bool false) (.bool true) rfl rfl rfl⟩

/-- C9: the `/health` verdict is computed from Python truthiness of each
raw `health_check` return value (not from comparison with `True`), and the
raw value itself — not a normalised boolean — is stored under the
service's key in the `services` mapping of the response. -/
theorem health_truthiness_raw_values (a : App) (f g q : PyVal)
    (hf : a.fuzzy_match_service.health_check = .ok f)
    (hg : a.graph_index_service.health_check = .ok g)
    (hq : a.query_optimizer_service.health_check = .ok q) :
    health_check a = .ok (.dict
      [("status",
        .str (if f.truthy && (g.truthy && q.truthy)
              then "healthy" else "degraded")),
       ("services", .dict
         [("fuzzy_match", f), ("graph_index", g), ("query_optimizer", q)])]) := by
  simp [health_check, hf, hg, hq]

/-- C9 witness: every subsystem of `appStrHealth` reports the truthy
non-boolean string `"ok"`; the verdict is computed from its truthiness and
the raw string appears in the mapping. -/
theorem health_truthiness_raw_values_witness :
    (appStrHealth.fuzzy_match_service.health_check = .ok (.str "ok") ∧
     appStrHealth.graph_index_service.health_check = .ok (.str "ok") ∧
     appStrHealth.query_optimizer_service.health_check = .ok (.str "ok")) ∧
    health_check appStrHealth = .ok (.dict
      [("status",
        .str (if (PyVal.str "ok").truthy &&
                 ((PyVal.str "ok").truthy && (PyVal.str "ok").truthy)
              then "healthy" else "degraded")),
       ("services", .dict
         [("fuzzy_match", .str "ok"), ("graph_index", .str "ok"),
          ("query_optimizer", .str "ok")])]) :=
  ⟨⟨rfl, rfl, rfl⟩,
   health_truthiness_raw_values appStrHealth
     (.str "ok") (.str "ok") (.str "ok") rfl rfl rfl⟩

/-- C10: the managed set of services is hard-coded: the registered
collection is keyed exactly by `fuzzy_match`, `graph_index`,
`query_optimizer`; startup issues exactly those three `initialize`
invocations (whether or not initialization succeeds); and, whenever every
probe returns, the `/health` response's `services` mapping carries exactly
those three keys and no others. -/
theorem fixed_three_services (a : App) (f g q : PyVal)
    (hf : a.fuzzy_match_service.health_check = .ok f)
    (hg : a.graph_index_service.health_check = .ok g)
    (hq : a.query_optimizer_service.health_check = .ok q) :
    a.namedServices.map Prod.fst =
      ["fuzzy_match", "graph_index", "query_optimizer"] ∧
    (startup a.namedServices AppState.initial).1.initCalls =
      ["fuzzy_match", "graph_index", "query_optimizer"] ∧
    ∃ st sv, health_check a = .ok (.dict
        [("status", .str st), ("services", .dict sv)]) ∧
      sv.map Prod.fst = ["fuzzy_match", "graph_index", "query_optimizer"] := by
  refine ⟨rfl, ?_, ?_⟩
  · cases hgi : gatherUnit [a.fuzzy_match_service.init, a.graph_index_service.init,
        a.query_optimizer_service.init] with
    | ok u =>
        cases u
        simp [startup, resume, AppState.initial, App.namedServices, hgi]
    | error e =>
        simp [startup, resume, AppState.initial, App.namedServices, hgi]
  · refine ⟨if ([f, g, q].all PyVal.truthy) then "healthy" else "degraded",
      [("fuzzy_match", f), ("graph_index", g), ("query_optimizer", q)], ?_, rfl⟩
    simp [health_check, hf, hg, hq]

/-- C10 witness: concrete run on `appAllOk`. -/
theorem fixed_three_services_witness :
    (appAllOk.fuzzy_match_service.health_check = .ok (.bool true) ∧
     appAllOk.graph_index_service.health_check = .ok (.bool true) ∧
     appAllOk.query_optimizer_service.health_check = .ok (.bool true)) ∧
    (appAllOk.namedServices.map Prod.fst =
       ["fuzzy_match", "graph_index", "query_optimizer"] ∧
     (startup appAllOk.namedServices AppState.initial).1.initCalls =
       ["fuzzy_match", "graph_index", "query_optimizer"] ∧
     ∃ st sv, health_check appAllOk = .ok (.dict
         [("status", .str st), ("services", .dict sv)]) ∧
       sv.map Prod.fst = ["fuzzy_match", "graph_index", "query_optimizer"]) :=
  ⟨⟨rfl, rfl, rfl⟩,
   fixed_three_services appAllOk (.bool true) (.bool true) (.bool true)
     rfl rfl rfl⟩
